import Mathlib

/-!
Verification of the tiered routing, retry, and budget-governed fallback core
of the ai-agent-ecosystem repository.

The definitions below are shallow embeddings of the JavaScript source:
  * `Retry` — `isRetryableError`, `withRetry` (src/utils/api-retry, the module
    shipped as `unnamed/part_000`, lines 301–347);
  * `Fallback` — `escalateModel`'s downgrade/escalation maps
    (src/core/model-router.js, lines 126–172) and `FALLBACK_CHAIN`;
  * `Router` — the complexity classifier, emotional-context analysis,
    tier selection and emergency map of src/core/model-router.js;
  * `LightweightMonitor` — the in-memory daily budget state machine of
    src/optimization/lightweight-monitor.js;
  * `CostOptimizer` — the daily usage log and budget alerts of
    src/optimization/cost-optimizer.js.

Machine floats of the source are modelled as exact rationals (all constants
involved — budgets, costs, thresholds — are short decimals, and the source
performs only +, /, ≥ on them, so the embedding is exact on those inputs).
-/

namespace Retry

/-- Shape of the error objects inspected by `isRetryableError`:
`status` (Anthropic SDK), `type`, `response.status` (Axios), `code` (Node
network errors).  Absent fields are `none`. -/
structure ApiError where
  status : Option Nat
  type : Option String
  responseStatus : Option Nat
  code : Option String
deriving DecidableEq, Repr

/-- The fixed network-level error codes of `isRetryableError`. -/
def networkCodes : List String := ["ECONNRESET", "ETIMEDOUT", "ECONNREFUSED", "ENOTFOUND"]

/-- Embedding of `isRetryableError` (part_000 lines 304–317), check for check. -/
def isRetryableError (e : ApiError) : Bool :=
  if e.status = some 429 ∨ e.status = some 529 then true
  else if e.type = some "rate_limit_error" ∨ e.type = some "overloaded_error" then true
  else if e.responseStatus = some 429 ∨ e.responseStatus = some 503 then true
  else if (match e.code with | some c => networkCodes.contains c | none => false) then true
  else false

/-- An error signals rate-limiting: HTTP 429 (direct or via an Axios
response) or the SDK `rate_limit_error` type. -/
def rateLimitSignal (e : ApiError) : Bool :=
  e.status = some 429 || e.type = some "rate_limit_error" || e.responseStatus = some 429

/-- An error signals service overload: HTTP 529 / 503 or the SDK
`overloaded_error` type. -/
def overloadSignal (e : ApiError) : Bool :=
  e.status = some 529 || e.type = some "overloaded_error" || e.responseStatus = some 503

/-- An error carries one of the fixed network-level failure codes. -/
def networkSignal (e : ApiError) : Bool :=
  match e.code with
  | some c => networkCodes.contains c
  | none => false

/-- Outcome of one `withRetry` run: final result, the backoff delays (ms)
inserted before attempts, and the number of attempts made. -/
structure RunResult (α : Type) where
  result : Except ApiError α
  delays : List Nat
  attempts : Nat
deriving Repr

/-- The delay inserted before a given attempt: none before attempt 0,
`baseDelayMs * 2 ^ (attempt - 1)` before attempts ≥ 1
(part_000 lines 330–333). -/
def mkDelay (base attempt : Nat) : List Nat :=
  if attempt = 0 then [] else [base * 2 ^ (attempt - 1)]

/-- The loop of `withRetry` (part_000 lines 329–344), starting at `attempt`
with `remaining` further attempts allowed (`remaining = maxRetries - attempt`):
sleep `mkDelay`, call `f attempt`; on success return; on failure rethrow
when the error is non-retryable or no attempts remain, otherwise recurse. -/
def runRetry {α : Type} (f : Nat → Except ApiError α) (base : Nat) :
    Nat → Nat → RunResult α
  | attempt, 0 =>
    match f attempt with
    | .ok v => ⟨.ok v, mkDelay base attempt, 1⟩
    | .error e => ⟨.error e, mkDelay base attempt, 1⟩
  | attempt, remaining + 1 =>
    match f attempt with
    | .ok v => ⟨.ok v, mkDelay base attempt, 1⟩
    | .error e =>
      if isRetryableError e then
        let r := runRetry f base (attempt + 1) remaining
        ⟨r.result, mkDelay base attempt ++ r.delays, r.attempts + 1⟩
      else ⟨.error e, mkDelay base attempt, 1⟩

/-- Embedding of `withRetry(fn, { maxRetries, baseDelayMs })`
(part_000 lines 326–347); the function under retry is modelled as the
sequence of its per-attempt outcomes. -/
def withRetry {α : Type} (f : Nat → Except ApiError α) (maxRetries base : Nat) :
    RunResult α :=
  runRetry f base 0 maxRetries

end Retry

namespace Fallback

/-- An error thrown by `escalateModel`: its message, and the `cause`
property of the thrown `Error` object (the source constructs
`new Error(...)` with no cause, so the field is `none` there). -/
structure FbError where
  message : String
  cause : Option Retry.ApiError
deriving DecidableEq, Repr

/-- The `downgradeMap` of `escalateModel` (model-router.js lines 129–135):
opus-4.6 (L5) → sonnet-4 (L4) → glm-4.7 (L3) → deepseek-v3 (L2) → null,
and claude-code (L1) → null. -/
def downgradeMap : List (String × Option String) :=
  [("claude-opus-4.6", some "claude-sonnet-4"),
   ("claude-sonnet-4", some "glm-4.7"),
   ("glm-4.7", some "deepseek-v3"),
   ("deepseek-v3", none),
   ("claude-code", none)]

/-- Lookup `downgradeMap[currentModel]` — `undefined` (missing key) and
`null` are both falsy in the source, so both collapse to `none`. -/
def downgradeNext (m : String) : Option String :=
  (downgradeMap.lookup m).getD none

/-- The `escalationMap` of `escalateModel` (model-router.js lines 154–160). -/
def escalationMap : List (String × String) :=
  [("claude-code", "deepseek-v3"),
   ("deepseek-v3", "glm-4.7"),
   ("glm-4.7", "claude-sonnet-4"),
   ("claude-sonnet-4", "claude-opus-4.6"),
   ("claude-opus-4.6", "claude-opus-4.6")]

/-- Embedding of `escalateModel(currentModel, reason)`
(model-router.js lines 126–172): for `api_error` follow `downgradeMap`,
throwing `No fallback available for ...` (with no cause attached) at a
terminal model; otherwise follow `escalationMap` with default
`claude-opus-4.6`. -/
def escalateModel (currentModel reason : String) : Except FbError String :=
  if reason = "api_error" then
    match downgradeNext currentModel with
    | some m => .ok m
    | none => .error ⟨"No fallback available for " ++ currentModel, none⟩
  else
    .ok ((escalationMap.lookup currentModel).getD "claude-opus-4.6")

/-- The `FALLBACK_CHAIN` handler table of part_000 lines 354–368, reduced to
which model each key falls back to (`claude-code` has no key at all, which
reads as `undefined`, i.e. `none`). -/
def fallbackChainNext (m : String) : Option String :=
  ([("claude-opus", some "claude-sonnet"),
    ("claude-sonnet", some "glm"),
    ("glm", some "deepseek"),
    ("deepseek", (none : Option String))].lookup m).getD none

/-- The models visited by repeatedly applying the `api_error` downgrade
edge from `m` (excluding `m` itself), cut off by `fuel`. -/
def downgradePath : Nat → String → List String
  | 0, _ => []
  | fuel + 1, m =>
    match downgradeNext m with
    | none => []
    | some m2 => m2 :: downgradePath fuel m2

end Fallback

namespace Router

/-- The five model identifiers of model-router.js, ordered L1 .. L5. -/
def validModels : List String :=
  ["claude-code", "deepseek-v3", "glm-4.7", "claude-sonnet-4", "claude-opus-4.6"]

/-- The `levelMap` of `getModelLevel` (model-router.js lines 220–230). -/
def levelMap : List (String × String) :=
  [("claude-code", "L1 (工兵)"),
   ("deepseek-v3", "L2 (門番)"),
   ("glm-4.7", "L3 (秘書)"),
   ("claude-sonnet-4", "L4 (執筆官)"),
   ("claude-opus-4.6", "L5 (編集長)")]

/-- Embedding of `getModelLevel` (model-router.js lines 220–230). -/
def getModelLevel (m : String) : String :=
  (levelMap.lookup m).getD "Unknown"

/-- One entry of `config.complexityThresholds` (the external
routing-rules.json): a complexity level with its base score and its list
of trigger indicators. -/
structure LevelConfig where
  level : String
  score : ℚ
  indicators : List String

/-- The length bonus of `analyzeComplexity` (model-router.js line 45):
`Math.min(message.length / 200, 3)`. -/
def lengthBonus (len : Nat) : ℚ :=
  min ((len : ℚ) / 200) 3

/-- The score computed by `analyzeComplexity` (model-router.js lines 29–54):
for every configured level, each matched indicator adds that level's score;
then the length bonus is added.  Indicator matching (`containsIndicator`)
depends only on the message, abstracted as `matchesInd`. -/
def analyzeComplexityScore (config : List LevelConfig) (matchesInd : String → Bool)
    (len : Nat) : ℚ :=
  (config.map (fun c => ((c.indicators.filter matchesInd).length : ℚ) * c.score)).sum
    + lengthBonus len

/-- Embedding of `getComplexityLevel` (model-router.js lines 255–261):
score ≥ 10 ⇒ L5, ≥ 7 ⇒ L4, ≥ 5 ⇒ L3, ≥ 3 ⇒ L2, else L1. -/
def getComplexityLevel (score : ℚ) : String :=
  if 10 ≤ score then "claude-opus-4.6"
  else if 7 ≤ score then "claude-sonnet-4"
  else if 5 ≤ score then "glm-4.7"
  else if 3 ≤ score then "deepseek-v3"
  else "claude-code"

/-- Substring occurrence test over character lists: does `pat` start `s`? -/
def startsAt : List Char → List Char → Bool
  | _, [] => true
  | [], _ :: _ => false
  | c :: cs, p :: ps => c = p && startsAt cs ps

/-- Substring occurrence test over character lists. -/
def hasSub : List Char → List Char → Bool
  | [], pat => startsAt [] pat
  | c :: rest, pat => startsAt (c :: rest) pat || hasSub rest pat

/-- Occurrence of `pat` somewhere in `msg` (the regexes used by
`detectUserMood` are plain alternations of literals, so each reduces to
substring tests). -/
def containsSub (msg pat : String) : Bool :=
  hasSub msg.data pat.data

/-- Match of `msg` against an alternation of the literal `pats`. -/
def matchesAny (msg : String) (pats : List String) : Bool :=
  pats.any (containsSub msg)

/-- Embedding of `detectUserMood` (model-router.js lines 263–269). -/
def detectUserMood (message : String) : String :=
  if matchesAny message ["疲れ", "つかれ", "眠い", "だるい"] then "tired"
  else if matchesAny message ["忙しい", "急い", "ストレス", "大変"] then "stressed"
  else if matchesAny message ["楽しい", "嬉しい", "やった", "最高"] then "excited"
  else if matchesAny message ["集中", "作業", "仕事", "タスク"] then "focused"
  else "neutral"

/-- The emotional context produced by `analyzeEmotionalContext`
(the `recommended` field is config-driven and unused by tier selection). -/
structure EmotionalContext where
  timeOfDay : String
  weekday : String
  userMood : String
deriving DecidableEq, Repr

/-- Embedding of `analyzeEmotionalContext` (model-router.js lines 59–85),
with the timestamp given by its hour and day-of-week. -/
def analyzeEmotionalContext (message : String) (hour day : Nat) : EmotionalContext :=
  { timeOfDay :=
      if 6 ≤ hour ∧ hour < 12 then "morning"
      else if 12 ≤ hour ∧ hour < 18 then "afternoon"
      else if 18 ≤ hour ∧ hour < 22 then "evening"
      else "night",
    weekday :=
      if day = 1 then "monday"
      else if day = 5 then "friday"
      else if day = 0 ∨ day = 6 then "weekend"
      else "balanced",
    userMood := detectUserMood message }

/-- Embedding of `adjustForEmotion` (model-router.js lines 271–283):
at night or when tired, substitute glm-4.7 for deepseek-v3; when stressed,
return the string `claude-opus`; otherwise keep the model. -/
def adjustForEmotion (model : String) (ec : EmotionalContext) : String :=
  if ec.timeOfDay = "night" ∨ ec.userMood = "tired" then
    if model = "deepseek-v3" then "glm-4.7" else model
  else if ec.userMood = "stressed" then "claude-opus"
  else model

/-- The classifier output consumed by `selectOptimalModel`. -/
structure Complexity where
  totalScore : ℚ
  complexity : String

/-- The configuration switches read by `selectOptimalModel`. -/
structure RouterConfig where
  costOptimizationEnabled : Bool
  preferCheapModel : Bool
  emotionalContextEnabled : Bool

/-- Embedding of `selectOptimalModel(complexity, emotionalContext, ...)`
(model-router.js lines 90–120): prefer the cheap model when cost
optimization is on and the score is below 6, then apply the emotional
adjustment when enabled. -/
def selectOptimalModel (cfg : RouterConfig) (complexity : Complexity)
    (ec : EmotionalContext) : String :=
  let m1 :=
    if cfg.costOptimizationEnabled ∧ cfg.preferCheapModel ∧ complexity.totalScore < 6 then
      "deepseek-v3"
    else complexity.complexity
  if cfg.emotionalContextEnabled then adjustForEmotion m1 ec else m1

/-- The `emergencyMap` of `selectEmergencyModel`
(model-router.js lines 333–339). -/
def emergencyMap : List (String × String) :=
  [("claude-opus-4.6", "glm-4.7"),
   ("claude-sonnet-4", "glm-4.7"),
   ("glm-4.7", "glm-4.7"),
   ("deepseek-v3", "deepseek-v3"),
   ("claude-code", "claude-code")]

/-- The tier chosen by `selectEmergencyModel` for a given base tier
(model-router.js line 341): the `emergencyMap` entry, defaulting to
deepseek-v3. -/
def selectEmergencyTier (base : String) : String :=
  (emergencyMap.lookup base).getD "deepseek-v3"

end Router

namespace LightweightMonitor

/-- A budget alert: the crossed threshold fraction and the severity level
string computed by `triggerAlert` (lightweight-monitor.js line 64). -/
structure Alert where
  threshold : ℚ
  level : String
deriving DecidableEq, Repr

/-- The alert produced for a threshold: CRITICAL at fractions ≥ 0.9,
WARNING below. -/
def mkAlert (t : ℚ) : Alert :=
  ⟨t, if 9/10 ≤ t then "CRITICAL" else "WARNING"⟩

/-- The `alertThresholds` list (lightweight-monitor.js line 19): 70% and 90%. -/
def alertThresholds : List ℚ := [7/10, 9/10]

/-- The monitor state: `dailyUsage` (date modelled as a number, costs and
tokens as exact rationals), the `alertTriggered` set (as a list), and the
`global.emergencyMode.enabled` flag set by `enableEmergencyMode`. -/
structure MonState where
  date : Nat
  totalCost : ℚ
  totalTokens : ℚ
  requests : Nat
  fired : List ℚ
  emergency : Bool
deriving DecidableEq, Repr

/-- Embedding of `resetDailyUsage(newDate)` (lightweight-monitor.js lines
135–151): zero the counters, clear the fired-threshold set, disable
emergency mode. -/
def resetDailyUsage (newDate : Nat) : MonState :=
  ⟨newDate, 0, 0, 0, [], false⟩

/-- Embedding of `checkThresholds` together with the state effects of
`triggerAlert`/`enableEmergencyMode` (lightweight-monitor.js lines 46–78):
walk the threshold list in order; each reached threshold not yet in the
fired set is added to it and produces an alert, and crossing 0.9 enables
emergency mode. -/
def fireThresholds (budget : ℚ) : List ℚ → MonState → MonState × List Alert
  | [], s => (s, [])
  | t :: ts, s =>
    if t ≤ s.totalCost / budget ∧ t ∉ s.fired then
      let s1 : MonState :=
        { s with
            fired := s.fired ++ [t],
            emergency := if 9/10 ≤ t then true else s.emergency }
      let (s2, as) := fireThresholds budget ts s1
      (s2, mkAlert t :: as)
    else fireThresholds budget ts s

/-- Embedding of `LightweightMonitor.trackUsage(cost, tokens)`
(lightweight-monitor.js lines 26–41) with the current date passed
explicitly: reset on a date change, accumulate, then check thresholds. -/
def trackUsage (budget : ℚ) (today : Nat) (cost tokens : ℚ) (s : MonState) :
    MonState × List Alert :=
  let s0 := if s.date ≠ today then resetDailyUsage today else s
  let s1 : MonState :=
    { s0 with
        totalCost := s0.totalCost + cost,
        totalTokens := s0.totalTokens + tokens,
        requests := s0.requests + 1 }
  fireThresholds budget alertThresholds s1

/-- One `trackUsage` call: date, cost, tokens. -/
structure Call where
  date : Nat
  cost : ℚ
  tokens : ℚ
deriving DecidableEq, Repr

/-- A sequence of `trackUsage` calls, collecting all alerts in order. -/
def runSeq (budget : ℚ) : List Call → MonState → MonState × List Alert
  | [], s => (s, [])
  | c :: cs, s =>
    let r1 := trackUsage budget c.date c.cost c.tokens s
    let r2 := runSeq budget cs r1.1
    (r2.1, r1.2 ++ r2.2)

/-- Number of WARNING alerts in a list. -/
def warnCount (as : List Alert) : Nat :=
  (as.filter (fun a => a.level = "WARNING")).length

/-- Number of CRITICAL alerts in a list. -/
def critCount (as : List Alert) : Nat :=
  (as.filter (fun a => a.level = "CRITICAL")).length

/-- Indicator that threshold `t` is in the fired set: 1 when in, 0 otherwise. -/
def firedInd (t : ℚ) (s : MonState) : Nat :=
  if t ∈ s.fired then 1 else 0

/-- The per-day invariant maintained by `trackUsage` on a fixed date `d`
(for a positive budget and non-negative costs): the emergency flag tracks
the 0.9 threshold exactly, and a threshold is in the fired set iff the
cumulative cost has reached that fraction of the budget. -/
def DayInv (budget : ℚ) (d : Nat) (s : MonState) : Prop :=
  s.date = d ∧
  (s.emergency = true ↔ (9 : ℚ)/10 ∈ s.fired) ∧
  ((9 : ℚ)/10 ∈ s.fired → 9/10 * budget ≤ s.totalCost) ∧
  ((7 : ℚ)/10 ∈ s.fired → 7/10 * budget ≤ s.totalCost) ∧
  (7/10 * budget ≤ s.totalCost → (7 : ℚ)/10 ∈ s.fired) ∧
  (9/10 * budget ≤ s.totalCost → (9 : ℚ)/10 ∈ s.fired)

end LightweightMonitor

namespace CostOptimizer

/-- Per-model statistics inside a day's usage record
(cost-optimizer.js lines 131–137). -/
structure ModelStats where
  cost : ℚ
  tokens : ℚ
  count : Nat
deriving DecidableEq, Repr

/-- One day's record in `usageLog.daily` (cost-optimizer.js lines 118–125). -/
structure DailyUsage where
  totalCost : ℚ
  totalTokens : ℚ
  requests : Nat
  models : List (String × ModelStats)
deriving DecidableEq, Repr

/-- The fresh record created for a new date. -/
def emptyDaily : DailyUsage := ⟨0, 0, 0, []⟩

/-- Update the per-model statistics association list. -/
def bumpModel (m : String) (tokens cost : ℚ) :
    List (String × ModelStats) → List (String × ModelStats)
  | [] => [(m, ⟨cost, tokens, 1⟩)]
  | (k, st) :: rest =>
    if k = m then (k, ⟨st.cost + cost, st.tokens + tokens, st.count + 1⟩) :: rest
    else (k, st) :: bumpModel m tokens cost rest

/-- The optimizer state relevant to budget tracking: the per-date usage log
and the `config.emergencyMode.enabled` flag set by `enableEmergencyMode`
(cost-optimizer.js lines 247–260). -/
structure COState where
  daily : List (Nat × DailyUsage)
  emergency : Bool
deriving DecidableEq, Repr

/-- Look up a date's record, defaulting to the fresh record
(`if (!this.usageLog.daily[today]) ...` in lines 118–125). -/
def getDaily (s : COState) (d : Nat) : DailyUsage :=
  (s.daily.lookup d).getD emptyDaily

/-- Store a date's record. -/
def setDaily (d : Nat) (u : DailyUsage) : List (Nat × DailyUsage) → List (Nat × DailyUsage)
  | [] => [(d, u)]
  | (k, v) :: rest => if k = d then (d, u) :: rest else (k, v) :: setDaily d u rest

/-- Embedding of `checkBudgetAlert(date)` (cost-optimizer.js lines 143–158):
`budgetPercentage = totalCost / dailyBudget * 100`; at ≥ 90 trigger a
CRITICAL alert and enable emergency mode, else at ≥ 70 a WARNING, else at
≥ 50 an INFO; below 50 nothing. -/
def checkBudgetAlert (budget : ℚ) (s : COState) (d : Nat) : COState × List String :=
  let pct := (getDaily s d).totalCost / budget * 100
  if 90 ≤ pct then ({ s with emergency := true }, ["CRITICAL"])
  else if 70 ≤ pct then (s, ["WARNING"])
  else if 50 ≤ pct then (s, ["INFO"])
  else (s, [])

/-- Embedding of `CostOptimizer.trackUsage(modelUsed, tokens, cost)`
(cost-optimizer.js lines 114–141) with `today` passed explicitly:
accumulate into the day's record (creating it on first use of the date),
then run the budget alert check. -/
def trackUsage (budget : ℚ) (today : Nat) (modelUsed : String) (tokens cost : ℚ)
    (s : COState) : COState × List String :=
  let u := getDaily s today
  let u1 : DailyUsage :=
    { totalCost := u.totalCost + cost,
      totalTokens := u.totalTokens + tokens,
      requests := u.requests + 1,
      models := bumpModel modelUsed tokens cost u.models }
  checkBudgetAlert budget { s with daily := setDaily today u1 s.daily } today

/-- A sequence of calls `(date, model, tokens, cost)`, collecting alerts. -/
def runSeq (budget : ℚ) : List (Nat × String × ℚ × ℚ) → COState → COState × List String
  | [], s => (s, [])
  | (d, m, tk, c) :: cs, s =>
    let r1 := trackUsage budget d m tk c s
    let r2 := runSeq budget cs r1.1
    (r2.1, r1.2 ++ r2.2)

end CostOptimizer

/-!  ## Theorems settling the claims  -/

/-- Claim C2, counterexample: the claim says repeated application of the
`api_error` downgrade edge reaches L1 from every tier and that L1 is the
only tier with no fallback successor.  In the code the chain from L5
(claude-opus-4.6) is L4, L3, L2 and then stops: `downgradeMap` maps
deepseek-v3 (L2) to `null`, so L2 is a second terminal tier and
claude-code (L1) is never reached. -/
theorem c2_fallback_chain_counterexample :
    Fallback.downgradePath 10 "claude-opus-4.6" =
      ["claude-sonnet-4", "glm-4.7", "deepseek-v3"] ∧
    "claude-code" ∉ Fallback.downgradePath 10 "claude-opus-4.6" ∧
    Fallback.downgradeNext "deepseek-v3" = none ∧
    "deepseek-v3" ≠ "claude-code" := by
  refine ⟨rfl, ?_, rfl, ?_⟩ <;> decide

/-- Claim C2, amended: from every tier, repeated application of the
`api_error` downgrade edge terminates in at most 3 hops, never cycles, and
the tiers with no fallback successor are exactly deepseek-v3 (L2) and
claude-code (L1); the chain is L5→L4→L3→L2→None, with L1 unreachable and
also terminal. -/
theorem c2_fallback_chain_terminates (m : String) (hm : m ∈ Router.validModels) :
    (Fallback.downgradePath 10 m).length ≤ 3 ∧
    (m :: Fallback.downgradePath 10 m).Nodup ∧
    Fallback.downgradeNext ((Fallback.downgradePath 10 m).getLastD m) = none ∧
    (Fallback.downgradeNext m = none ↔ m = "deepseek-v3" ∨ m = "claude-code") := by
  simp only [Router.validModels, List.mem_cons, List.not_mem_nil, or_false] at hm
  rcases hm with rfl | rfl | rfl | rfl | rfl <;> refine ⟨by decide, by decide, by decide, by decide⟩

/-- Witness for `c2_fallback_chain_terminates` at the top tier. -/
theorem c2_fallback_chain_terminates_witness :
    "claude-opus-4.6" ∈ Router.validModels ∧
    ((Fallback.downgradePath 10 "claude-opus-4.6").length ≤ 3 ∧
     ("claude-opus-4.6" :: Fallback.downgradePath 10 "claude-opus-4.6").Nodup ∧
     Fallback.downgradeNext ((Fallback.downgradePath 10 "claude-opus-4.6").getLastD "claude-opus-4.6") = none ∧
     (Fallback.downgradeNext "claude-opus-4.6" = none ↔
       "claude-opus-4.6" = "deepseek-v3" ∨ "claude-opus-4.6" = "claude-code")) :=
  ⟨by decide, c2_fallback_chain_terminates "claude-opus-4.6" (by decide)⟩

/-- Claim C6, confirmed: under emergency mode the tier map of
`selectEmergencyModel` is exactly {L5→L3, L4→L3, L3→L3, L2→L2, L1→L1}:
L1/L2/L3 pass through unchanged and only L4/L5 are forced down to L3. -/
theorem c6_emergency_map_exact :
    Router.selectEmergencyTier "claude-opus-4.6" = "glm-4.7" ∧
    Router.selectEmergencyTier "claude-sonnet-4" = "glm-4.7" ∧
    Router.selectEmergencyTier "glm-4.7" = "glm-4.7" ∧
    Router.selectEmergencyTier "deepseek-v3" = "deepseek-v3" ∧
    Router.selectEmergencyTier "claude-code" = "claude-code" :=
  ⟨rfl, rfl, rfl, rfl, rfl⟩

/-- Claim C7, code bug: the claim says the selected tier — including after
the emotional adjustment — is always one of the five valid tiers.  For a
stressed mood in the afternoon, `adjustForEmotion` returns the string
`claude-opus`, which is not one of the five model identifiers of
model-router.js (`getModelLevel` classifies it as `Unknown`); the rest of
the file consistently spells the top tier `claude-opus-4.6`, so this is a
slip in the code rather than a sixth tier. -/
theorem c7_stressed_mood_invalid_tier :
    Router.selectOptimalModel ⟨true, true, true⟩ ⟨10, "claude-opus-4.6"⟩
        (Router.analyzeEmotionalContext "ストレスで大変" 14 3) = "claude-opus" ∧
    "claude-opus" ∉ Router.validModels ∧
    Router.getModelLevel "claude-opus" = "Unknown" := by
  refine ⟨rfl, ?_, rfl⟩
  decide

/-- Helper: from any attempt ≥ 1, the delays inserted by the retry loop are
`base * 2 ^ i` for `i` ranging over the attempt indices minus one. -/
theorem runRetry_delays_shape {α : Type} (f : Nat → Except Retry.ApiError α) (b : Nat) :
    ∀ (remaining attempt : Nat), 1 ≤ attempt →
      (Retry.runRetry f b attempt remaining).delays =
        (List.range' (attempt - 1) (Retry.runRetry f b attempt remaining).attempts).map
          (fun i => b * 2 ^ i) := by
  intro remaining
  induction remaining with
  | zero =>
    intro attempt ha
    cases h : f attempt <;>
      simp [Retry.runRetry, h, Retry.mkDelay, Nat.pos_iff_ne_zero.mp ha, List.range'_succ]
  | succ n ih =>
    intro attempt ha
    cases h : f attempt with
    | ok v =>
      simp [Retry.runRetry, h, Retry.mkDelay, Nat.pos_iff_ne_zero.mp ha, List.range'_succ]
    | error e =>
      by_cases hr : Retry.isRetryableError e
      · have hrec := ih (attempt + 1) (by omega)
        simp only [Nat.add_sub_cancel] at hrec
        simp [Retry.runRetry, h, hr, Retry.mkDelay, Nat.pos_iff_ne_zero.mp ha,
          List.range'_succ, hrec, Nat.sub_add_cancel ha]
      · simp [Retry.runRetry, h, hr, Retry.mkDelay, Nat.pos_iff_ne_zero.mp ha, List.range'_succ]

/-- Helper: the full run's delays are `base * 2 ^ i` for
`i < attempts - 1`; in particular attempt 0 gets no delay and attempt
`i ≥ 1` is preceded by `base * 2 ^ (i - 1)`. -/
theorem withRetry_delays_shape {α : Type} (f : Nat → Except Retry.ApiError α) (mr b : Nat) :
    (Retry.withRetry f mr b).delays =
      (List.range ((Retry.withRetry f mr b).attempts - 1)).map (fun i => b * 2 ^ i) := by
  cases mr with
  | zero => cases h : f 0 <;> simp [Retry.withRetry, Retry.runRetry, h, Retry.mkDelay]
  | succ n =>
    cases h : f 0 with
    | ok v => simp [Retry.withRetry, Retry.runRetry, h, Retry.mkDelay]
    | error e =>
      by_cases hr : Retry.isRetryableError e
      · have hrec := runRetry_delays_shape f b n 1 (by omega)
        simp only [Nat.sub_self] at hrec
        simp [Retry.withRetry, Retry.runRetry, h, hr, Retry.mkDelay, hrec,
          List.range_eq_range']
      · simp [Retry.withRetry, Retry.runRetry, h, hr, Retry.mkDelay]

/-- Helper: when every attempt fails with a retryable error, the loop ends
by rethrowing the error of its last attempt (`attempt + remaining`). -/
theorem runRetry_all_fail {α : Type} (f : Nat → Except Retry.ApiError α)
    (es : Nat → Retry.ApiError) (hf : ∀ i, f i = .error (es i))
    (hr : ∀ i, Retry.isRetryableError (es i) = true) (b : Nat) :
    ∀ (remaining attempt : Nat),
      (Retry.runRetry f b attempt remaining).result = .error (es (attempt + remaining)) := by
  intro remaining
  induction remaining with
  | zero => intro attempt; simp [Retry.runRetry, hf attempt]
  | succ n ih =>
    intro attempt
    have h2 := ih (attempt + 1)
    rw [show attempt + (n + 1) = attempt + 1 + n by omega, ← h2]
    rw [Retry.runRetry, hf attempt]
    simp [hr attempt]

/-- Claim C3, confirmed: attempt 0 runs with no delay and attempt `i` in
`1..maxRetries` is preceded by a wait of `baseDelayMs * 2 ^ (i-1)` (the
delay list is `[b·2⁰, b·2¹, …]`); with the defaults `maxRetries = 3`,
`baseDelayMs = 1000` and a retryable failure on every attempt, the run
waits 1000, 2000, then 4000 ms (7000 ms in total), makes 4 attempts, and
then raises the final failure. -/
theorem c3_exponential_backoff_schedule :
    (∀ (α : Type) (g : Nat → Except Retry.ApiError α) (mr b : Nat),
      (Retry.withRetry g mr b).delays =
        (List.range ((Retry.withRetry g mr b).attempts - 1)).map (fun i => b * 2 ^ i)) ∧
    (∀ (f : Nat → Except Retry.ApiError Unit) (es : Nat → Retry.ApiError),
      (∀ i, f i = .error (es i)) → (∀ i, Retry.isRetryableError (es i) = true) →
      Retry.withRetry f 3 1000 = ⟨.error (es 3), [1000, 2000, 4000], 4⟩ ∧
      ([1000, 2000, 4000] : List Nat).sum = 7000) := by
  constructor
  · exact fun α g mr b => withRetry_delays_shape g mr b
  · intro f es hf hr
    refine ⟨?_, by norm_num⟩
    simp [Retry.withRetry, Retry.runRetry, hf 0, hf 1, hf 2, hf 3,
      hr 0, hr 1, hr 2, hr 3, Retry.mkDelay]

/-- Witness for `c3_exponential_backoff_schedule` on a run that fails with
HTTP 429 at every attempt. -/
theorem c3_exponential_backoff_schedule_witness :
    (∀ i : Nat, (fun _ : Nat => (.error ⟨some 429, none, none, none⟩ : Except Retry.ApiError Unit)) i =
      .error ((fun _ : Nat => (⟨some 429, none, none, none⟩ : Retry.ApiError)) i)) ∧
    (∀ i : Nat, Retry.isRetryableError ((fun _ : Nat => (⟨some 429, none, none, none⟩ : Retry.ApiError)) i) = true) ∧
    (Retry.withRetry (fun _ : Nat => (.error ⟨some 429, none, none, none⟩ : Except Retry.ApiError Unit)) 3 1000 =
        ⟨.error ⟨some 429, none, none, none⟩, [1000, 2000, 4000], 4⟩ ∧
      ([1000, 2000, 4000] : List Nat).sum = 7000) :=
  ⟨fun _ => rfl, fun _ => rfl,
    c3_exponential_backoff_schedule.2 _ _ (fun _ => rfl) (fun _ => rfl)⟩

/-- Claim C4, confirmed: a failure is retryable iff it signals
rate-limiting (429 / `rate_limit_error`), service overload
(529 / `overloaded_error` / 503), or carries one of the four fixed
network-level codes; and for a non-retryable failure the executor makes
exactly one attempt, inserts no delay, and propagates the failure. -/
theorem c4_retryable_iff_and_nonretryable_single_attempt :
    (∀ e : Retry.ApiError,
      Retry.isRetryableError e =
        (Retry.rateLimitSignal e || Retry.overloadSignal e || Retry.networkSignal e)) ∧
    (∀ (α : Type) (f : Nat → Except Retry.ApiError α) (e : Retry.ApiError) (mr b : Nat),
      f 0 = .error e → Retry.isRetryableError e = false →
      Retry.withRetry f mr b = ⟨.error e, [], 1⟩) := by
  constructor
  · intro e
    simp only [Retry.isRetryableError, Retry.rateLimitSignal, Retry.overloadSignal,
      Retry.networkSignal]
    by_cases h1 : e.status = some 429 <;> by_cases h2 : e.status = some 529 <;>
      by_cases h3 : e.type = some "rate_limit_error" <;>
      by_cases h4 : e.type = some "overloaded_error" <;>
      by_cases h5 : e.responseStatus = some 429 <;>
      by_cases h6 : e.responseStatus = some 503 <;>
      cases hc : e.code <;>
      simp [h1, h2, h3, h4, h5, h6, hc]
  · intro α f e mr b hf hr
    cases mr <;> simp [Retry.withRetry, Retry.runRetry, hf, hr, Retry.mkDelay]

/-- Witness for `c4_retryable_iff_and_nonretryable_single_attempt` on an
HTTP 400 failure. -/
theorem c4_retryable_iff_witness :
    ((fun _ : Nat => (.error ⟨some 400, none, none, none⟩ : Except Retry.ApiError Unit)) 0 =
      .error ⟨some 400, none, none, none⟩) ∧
    Retry.isRetryableError ⟨some 400, none, none, none⟩ = false ∧
    Retry.withRetry (fun _ : Nat => (.error ⟨some 400, none, none, none⟩ : Except Retry.ApiError Unit)) 3 1000 =
      ⟨.error ⟨some 400, none, none, none⟩, [], 1⟩ :=
  ⟨rfl, rfl, c4_retryable_iff_and_nonretryable_single_attempt.2 Unit _ _ 3 1000 rfl rfl⟩

/-- Claim C5, counterexample: the claim says exhaustion raises a
`TierExhausted` signal distinct from rethrowing the underlying error, and
that the terminal fallback error preserves the original error as its
cause.  In the code, `withRetry` at exhaustion rethrows the very error of
the last attempt (there is no distinct signal), and `escalateModel` at a
terminal tier throws a fresh `Error` with no cause attached. -/
theorem c5_exhaustion_counterexample :
    Retry.withRetry (fun _ => (.error ⟨some 429, none, none, none⟩ : Except Retry.ApiError Unit)) 3 1000 =
      ⟨.error ⟨some 429, none, none, none⟩, [1000, 2000, 4000], 4⟩ ∧
    Fallback.escalateModel "deepseek-v3" "api_error" =
      .error ⟨"No fallback available for deepseek-v3", none⟩ :=
  ⟨rfl, rfl⟩

/-- Claim C5, amended: when every attempt up to the last fails with a
retryable error, `withRetry` rethrows the underlying error of the last
attempt itself (no distinct `TierExhausted` value exists); and at a tier
with no fallback successor, `escalateModel` throws a
`No fallback available` error that carries no cause. -/
theorem c5_exhaustion_rethrows_underlying :
    (∀ (f : Nat → Except Retry.ApiError Unit) (es : Nat → Retry.ApiError) (mr b : Nat),
      (∀ i, f i = .error (es i)) → (∀ i, Retry.isRetryableError (es i) = true) →
      (Retry.withRetry f mr b).result = .error (es mr)) ∧
    (∀ m : String, Fallback.downgradeNext m = none →
      Fallback.escalateModel m "api_error" =
        .error ⟨"No fallback available for " ++ m, none⟩) := by
  constructor
  · intro f es mr b hf hr
    simpa using runRetry_all_fail f es hf hr b mr 0
  · intro m hm
    simp [Fallback.escalateModel, hm]

/-- Witness for `c5_exhaustion_rethrows_underlying` on a permanent HTTP
429 failure and the terminal tier deepseek-v3. -/
theorem c5_exhaustion_rethrows_witness :
    (∀ i : Nat, (fun _ : Nat => (.error ⟨some 429, none, none, none⟩ : Except Retry.ApiError Unit)) i =
      .error ((fun _ : Nat => (⟨some 429, none, none, none⟩ : Retry.ApiError)) i)) ∧
    (∀ i : Nat, Retry.isRetryableError ((fun _ : Nat => (⟨some 429, none, none, none⟩ : Retry.ApiError)) i) = true) ∧
    Fallback.downgradeNext "deepseek-v3" = none ∧
    ((Retry.withRetry (fun _ : Nat => (.error ⟨some 429, none, none, none⟩ : Except Retry.ApiError Unit)) 5 1000).result =
        .error ⟨some 429, none, none, none⟩ ∧
      Fallback.escalateModel "deepseek-v3" "api_error" =
        .error ⟨"No fallback available for deepseek-v3", none⟩) :=
  ⟨fun _ => rfl, fun _ => rfl, rfl,
    c5_exhaustion_rethrows_underlying.1 _ _ 5 1000 (fun _ => rfl) (fun _ => rfl),
    c5_exhaustion_rethrows_underlying.2 "deepseek-v3" rfl⟩

/-- Claim C8, counterexample: the claim says the length bonus is exactly +2
above 500 characters and +4 above 1000, giving score 4 for a 1200-character
text with no keyword match.  The code computes
`Math.min(message.length / 200, 3)`: at length 1200 the bonus is capped at
3, the score is 3 (not 4), and at length 501 the bonus is 2.505 (not 2). -/
theorem c8_length_bonus_counterexample :
    Router.analyzeComplexityScore [] (fun _ => false) 1200 = 3 ∧
    Router.analyzeComplexityScore [] (fun _ => false) 1200 ≠ 4 ∧
    Router.lengthBonus 501 ≠ 2 ∧
    Router.lengthBonus 1200 ≠ 4 := by
  norm_num [Router.analyzeComplexityScore, Router.lengthBonus, min_def]

/-- Claim C8, amended: the length bonus is `min(length/200, 3)` — in
particular exactly 3 for any text of 600 or more characters — so for every
text with no matched indicator and length 1200 the score is 3, which under
the tier thresholds {L2:3, L3:5, L4:7, L5:10} still recommends L2
(deepseek-v3). -/
theorem c8_no_keyword_1200_recommends_l2 (config : List Router.LevelConfig)
    (matchesInd : String → Bool)
    (h : ∀ c ∈ config, ∀ ind ∈ c.indicators, matchesInd ind = false) :
    Router.analyzeComplexityScore config matchesInd 1200 = 3 ∧
    Router.getComplexityLevel (Router.analyzeComplexityScore config matchesInd 1200) =
      "deepseek-v3" ∧
    (∀ len : Nat, 600 ≤ len → Router.lengthBonus len = 3) := by
  have hsum : (config.map
      (fun c => ((c.indicators.filter matchesInd).length : ℚ) * c.score)).sum = 0 := by
    apply List.sum_eq_zero
    intro x hx
    simp only [List.mem_map] at hx
    obtain ⟨c, hc, rfl⟩ := hx
    have hnil : c.indicators.filter matchesInd = [] :=
      List.filter_eq_nil_iff.mpr (fun ind hind => by simp [h c hc ind hind])
    simp [hnil]
  have hscore : Router.analyzeComplexityScore config matchesInd 1200 = 3 := by
    simp only [Router.analyzeComplexityScore, hsum, Router.lengthBonus]
    norm_num [min_def]
  refine ⟨hscore, ?_, ?_⟩
  · rw [hscore]
    norm_num [Router.getComplexityLevel]
  · intro len hlen
    have h3 : (3 : ℚ) ≤ (len : ℚ) / 200 := by
      rw [le_div_iff₀ (by norm_num : (0 : ℚ) < 200)]
      calc (3 : ℚ) * 200 = 600 := by norm_num
        _ ≤ (len : ℚ) := by exact_mod_cast hlen
    simp [Router.lengthBonus, min_eq_right h3]

/-- Witness for `c8_no_keyword_1200_recommends_l2` with an empty indicator
configuration. -/
theorem c8_no_keyword_1200_witness :
    (∀ c ∈ ([] : List Router.LevelConfig), ∀ ind ∈ c.indicators,
      (fun _ : String => false) ind = false) ∧
    (Router.analyzeComplexityScore [] (fun _ : String => false) 1200 = 3 ∧
     Router.getComplexityLevel (Router.analyzeComplexityScore [] (fun _ : String => false) 1200) =
       "deepseek-v3" ∧
     (∀ len : Nat, 600 ≤ len → Router.lengthBonus len = 3)) :=
  ⟨by simp, c8_no_keyword_1200_recommends_l2 [] (fun _ => false) (by simp)⟩

/-- Helper: looking up the date just stored by `setDaily` returns the
stored record. -/
theorem lookup_setDaily (d : Nat) (u : CostOptimizer.DailyUsage) :
    ∀ l : List (Nat × CostOptimizer.DailyUsage),
      (CostOptimizer.setDaily d u l).lookup d = some u := by
  intro l
  induction l with
  | nil => simp [CostOptimizer.setDaily, List.lookup]
  | cons kv rest ih =>
    obtain ⟨k, v⟩ := kv
    by_cases hk : k = d
    · subst hk
      simp [CostOptimizer.setDaily, List.lookup]
    · have hbk : (d == k) = false := by
        simpa using Ne.symm hk
      simp [CostOptimizer.setDaily, hk, List.lookup, hbk, ih]

/-- Claim C10, confirmed: whenever a `CostOptimizer.trackUsage` call leaves
the day's cumulative cost at ≥ 50% but < 70% of the daily budget, the call
triggers an INFO-severity budget alert — a level the specification does not
mention — and, since the guard depends only on the current percentage (no
fired-threshold memory), this INFO alert recurs on every such call rather
than at most once per day. -/
theorem c10_info_alert_every_call (budget : ℚ) (today : Nat) (modelUsed : String)
    (tokens cost : ℚ) (s : CostOptimizer.COState)
    (h50 : 50 ≤ ((CostOptimizer.getDaily s today).totalCost + cost) / budget * 100)
    (h70 : ((CostOptimizer.getDaily s today).totalCost + cost) / budget * 100 < 70) :
    (CostOptimizer.trackUsage budget today modelUsed tokens cost s).2 = ["INFO"] := by
  have h90 : ¬(90 ≤ ((CostOptimizer.getDaily s today).totalCost + cost) / budget * 100) := by
    linarith
  have h70n : ¬(70 ≤ ((CostOptimizer.getDaily s today).totalCost + cost) / budget * 100) := by
    linarith
  simp only [CostOptimizer.getDaily] at h50 h90 h70n
  simp only [CostOptimizer.trackUsage, CostOptimizer.checkBudgetAlert, CostOptimizer.getDaily,
    lookup_setDaily, Option.getD_some]
  simp [h90, h70n, h50]

/-- Witness for `c10_info_alert_every_call`: the second of two calls that
both land in the 50–70% band re-triggers INFO. -/
theorem c10_info_alert_witness :
    50 ≤ ((CostOptimizer.getDaily ⟨[(0, ⟨13/5, 10, 1, [("glm-4.7", ⟨13/5, 10, 1⟩)]⟩)], false⟩ 0).totalCost + 1/5) / 5 * 100 ∧
    ((CostOptimizer.getDaily ⟨[(0, ⟨13/5, 10, 1, [("glm-4.7", ⟨13/5, 10, 1⟩)]⟩)], false⟩ 0).totalCost + 1/5) / 5 * 100 < 70 ∧
    (CostOptimizer.trackUsage 5 0 "glm-4.7" 10 (1/5)
      ⟨[(0, ⟨13/5, 10, 1, [("glm-4.7", ⟨13/5, 10, 1⟩)]⟩)], false⟩).2 = ["INFO"] := by
  refine ⟨?_, ?_, c10_info_alert_every_call 5 0 "glm-4.7" 10 (1/5) _ ?_ ?_⟩ <;>
    norm_num [CostOptimizer.getDaily, List.lookup]

/-- Helper: closed form of one same-date `LightweightMonitor.trackUsage`
call — the two thresholds are examined in ascending order against the new
cumulative cost, each not-yet-fired reached threshold is appended to the
fired set and produces its alert, and emergency mode turns on exactly when
0.9 newly fires. -/
theorem trackUsage_closed_form (budget : ℚ) (d : Nat) (cost tokens : ℚ)
    (s : LightweightMonitor.MonState) (hd : s.date = d) :
    LightweightMonitor.trackUsage budget d cost tokens s =
      (⟨d, s.totalCost + cost, s.totalTokens + tokens, s.requests + 1,
        s.fired ++
          (if (7 : ℚ)/10 ≤ (s.totalCost + cost) / budget ∧ (7 : ℚ)/10 ∉ s.fired
            then [7/10] else []) ++
          (if (9 : ℚ)/10 ≤ (s.totalCost + cost) / budget ∧ (9 : ℚ)/10 ∉ s.fired
            then [9/10] else []),
        if (9 : ℚ)/10 ≤ (s.totalCost + cost) / budget ∧ (9 : ℚ)/10 ∉ s.fired
          then true else s.emergency⟩,
      (if (7 : ℚ)/10 ≤ (s.totalCost + cost) / budget ∧ (7 : ℚ)/10 ∉ s.fired
        then [LightweightMonitor.mkAlert (7/10)] else []) ++
      (if (9 : ℚ)/10 ≤ (s.totalCost + cost) / budget ∧ (9 : ℚ)/10 ∉ s.fired
        then [LightweightMonitor.mkAlert (9/10)] else [])) := by
  have h97 : ¬((9 : ℚ)/10 ≤ 7/10) := by norm_num
  have hne : ¬((9 : ℚ)/10 = 7/10) := by norm_num
  by_cases h7 : (7 : ℚ)/10 ≤ (s.totalCost + cost) / budget ∧ (7 : ℚ)/10 ∉ s.fired <;>
    by_cases h9 : (9 : ℚ)/10 ≤ (s.totalCost + cost) / budget ∧ (9 : ℚ)/10 ∉ s.fired <;>
    simp [LightweightMonitor.trackUsage, hd, LightweightMonitor.alertThresholds,
      LightweightMonitor.fireThresholds, h7, h9, h97, hne, List.mem_append,
      List.mem_singleton]

/-- Claim C9, counterexample: the claim says every newly reached threshold
fires in the same call, ascending, so one update crossing both 70% and 90%
emits WARNING and then CRITICAL.  In `CostOptimizer.checkBudgetAlert` the
levels are an if/else-if chain, so a single call taking a fresh day from
0% to 92% emits only CRITICAL and no WARNING. -/
theorem c9_costopt_single_call_counterexample :
    (CostOptimizer.trackUsage 5 0 "glm-4.7" 10 (23/5) ⟨[], false⟩).2 = ["CRITICAL"] ∧
    "WARNING" ∉ (CostOptimizer.trackUsage 5 0 "glm-4.7" 10 (23/5) ⟨[], false⟩).2 := by
  have h : (CostOptimizer.trackUsage 5 0 "glm-4.7" 10 (23/5) ⟨[], false⟩).2 = ["CRITICAL"] := by
    norm_num [CostOptimizer.trackUsage, CostOptimizer.checkBudgetAlert, CostOptimizer.getDaily,
      CostOptimizer.setDaily, CostOptimizer.emptyDaily, CostOptimizer.bumpModel, List.lookup]
  refine ⟨h, ?_⟩
  rw [h]
  decide

/-- Claim C9, amended: in `LightweightMonitor`, every threshold of the
ascending list [0.70, 0.90] that is not yet fired and whose fraction is
reached by the new percentage fires within that same call, in ascending
order (a call crossing both emits the 0.70 WARNING and then the 0.90
CRITICAL); in `CostOptimizer`, by contrast, a call at ≥ 90% emits only the
single CRITICAL alert. -/
theorem c9_thresholds_fire_same_call (budget : ℚ) (d : Nat) (cost tokens : ℚ)
    (s : LightweightMonitor.MonState) (hd : s.date = d) :
    (LightweightMonitor.trackUsage budget d cost tokens s).2 =
      (if (7 : ℚ)/10 ≤ (s.totalCost + cost) / budget ∧ (7 : ℚ)/10 ∉ s.fired
        then [LightweightMonitor.mkAlert (7/10)] else []) ++
      (if (9 : ℚ)/10 ≤ (s.totalCost + cost) / budget ∧ (9 : ℚ)/10 ∉ s.fired
        then [LightweightMonitor.mkAlert (9/10)] else []) ∧
    LightweightMonitor.mkAlert (7/10) = ⟨7/10, "WARNING"⟩ ∧
    LightweightMonitor.mkAlert (9/10) = ⟨9/10, "CRITICAL"⟩ ∧
    (∀ (budget2 : ℚ) (t2 : Nat) (m2 : String) (tok2 cost2 : ℚ) (s2 : CostOptimizer.COState),
      90 ≤ ((CostOptimizer.getDaily s2 t2).totalCost + cost2) / budget2 * 100 →
      (CostOptimizer.trackUsage budget2 t2 m2 tok2 cost2 s2).2 = ["CRITICAL"]) := by
  refine ⟨congrArg Prod.snd (trackUsage_closed_form budget d cost tokens s hd), ?_, ?_, ?_⟩
  · norm_num [LightweightMonitor.mkAlert]
  · norm_num [LightweightMonitor.mkAlert]
  · intro budget2 t2 m2 tok2 cost2 s2 h90
    simp only [CostOptimizer.getDaily] at h90
    simp only [CostOptimizer.trackUsage, CostOptimizer.checkBudgetAlert, CostOptimizer.getDaily,
      lookup_setDaily, Option.getD_some]
    simp [h90]

/-- Witness for `c9_thresholds_fire_same_call`: from a fresh day with
budget 5, one call costing 4.9 crosses both thresholds and emits the
WARNING and then the CRITICAL alert. -/
theorem c9_thresholds_fire_same_call_witness :
    (LightweightMonitor.resetDailyUsage 0).date = 0 ∧
    ((LightweightMonitor.trackUsage 5 0 (49/10) 10 (LightweightMonitor.resetDailyUsage 0)).2 =
      (if (7 : ℚ)/10 ≤ ((LightweightMonitor.resetDailyUsage 0).totalCost + 49/10) / 5 ∧
          (7 : ℚ)/10 ∉ (LightweightMonitor.resetDailyUsage 0).fired
        then [LightweightMonitor.mkAlert (7/10)] else []) ++
      (if (9 : ℚ)/10 ≤ ((LightweightMonitor.resetDailyUsage 0).totalCost + 49/10) / 5 ∧
          (9 : ℚ)/10 ∉ (LightweightMonitor.resetDailyUsage 0).fired
        then [LightweightMonitor.mkAlert (9/10)] else []) ∧
    LightweightMonitor.mkAlert (7/10) = ⟨7/10, "WARNING"⟩ ∧
    LightweightMonitor.mkAlert (9/10) = ⟨9/10, "CRITICAL"⟩ ∧
    (∀ (budget2 : ℚ) (t2 : Nat) (m2 : String) (tok2 cost2 : ℚ) (s2 : CostOptimizer.COState),
      90 ≤ ((CostOptimizer.getDaily s2 t2).totalCost + cost2) / budget2 * 100 →
      (CostOptimizer.trackUsage budget2 t2 m2 tok2 cost2 s2).2 = ["CRITICAL"])) :=
  ⟨rfl, c9_thresholds_fire_same_call 5 0 (49/10) 10 (LightweightMonitor.resetDailyUsage 0) rfl⟩

/-- Helper: one same-date `trackUsage` call preserves the daily invariant
(positive budget, non-negative cost), fires the WARNING/CRITICAL alert
exactly when 0.70/0.90 newly enters the fired set, and never decreases the
cumulative cost. -/
theorem trackUsage_step_inv (budget : ℚ) (hb : 0 < budget) (d : Nat) (cost tokens : ℚ)
    (hc : 0 ≤ cost) (s : LightweightMonitor.MonState)
    (hinv : LightweightMonitor.DayInv budget d s) :
    LightweightMonitor.DayInv budget d (LightweightMonitor.trackUsage budget d cost tokens s).1 ∧
    LightweightMonitor.warnCount (LightweightMonitor.trackUsage budget d cost tokens s).2 +
      LightweightMonitor.firedInd (7/10) s =
      LightweightMonitor.firedInd (7/10) (LightweightMonitor.trackUsage budget d cost tokens s).1 ∧
    LightweightMonitor.critCount (LightweightMonitor.trackUsage budget d cost tokens s).2 +
      LightweightMonitor.firedInd (9/10) s =
      LightweightMonitor.firedInd (9/10) (LightweightMonitor.trackUsage budget d cost tokens s).1 ∧
    s.totalCost ≤ (LightweightMonitor.trackUsage budget d cost tokens s).1.totalCost := by
  obtain ⟨hdt, hem, h9c, h7c, h7f, h9f⟩ := hinv
  unfold LightweightMonitor.DayInv
  rw [trackUsage_closed_form budget d cost tokens s hdt]
  have hdiv : ∀ t : ℚ, t ≤ (s.totalCost + cost) / budget ↔ t * budget ≤ s.totalCost + cost :=
    fun t => le_div_iff₀ hb
  have hmono : s.totalCost ≤ s.totalCost + cost := by linarith
  have hw7 : LightweightMonitor.mkAlert (7/10) = ⟨7/10, "WARNING"⟩ := by
    norm_num [LightweightMonitor.mkAlert]
  have hk9 : LightweightMonitor.mkAlert (9/10) = ⟨9/10, "CRITICAL"⟩ := by
    norm_num [LightweightMonitor.mkAlert]
  have hne : ¬((9 : ℚ)/10 = 7/10) := by norm_num
  have hne' : ¬((7 : ℚ)/10 = 9/10) := by norm_num
  by_cases h7 : (7 : ℚ)/10 ≤ (s.totalCost + cost) / budget ∧ (7 : ℚ)/10 ∉ s.fired <;>
    by_cases h9 : (9 : ℚ)/10 ≤ (s.totalCost + cost) / budget ∧ (9 : ℚ)/10 ∉ s.fired
  · -- both thresholds newly fire
    simp only [if_pos h7, if_pos h9]
    refine ⟨⟨trivial, by simp [List.mem_append], ?_, ?_, ?_, ?_⟩, ?_, ?_, hmono⟩
    · exact fun _ => (hdiv _).mp h9.1
    · exact fun _ => (hdiv _).mp h7.1
    · intro _; simp [List.mem_append]
    · intro _; simp [List.mem_append]
    · simp [LightweightMonitor.warnCount, LightweightMonitor.firedInd, hw7, hk9,
        List.mem_append, h7.2]
    · simp [LightweightMonitor.critCount, LightweightMonitor.firedInd, hw7, hk9,
        List.mem_append, h9.2]
  · -- only 0.70 newly fires
    have h9m : (9 : ℚ)/10 * budget ≤ s.totalCost + cost → (9 : ℚ)/10 ∈ s.fired := by
      intro hx
      by_contra hmem
      exact h9 ⟨(hdiv _).mpr hx, hmem⟩
    simp only [if_pos h7, if_neg h9]
    refine ⟨⟨trivial, ?_, ?_, ?_, ?_, ?_⟩, ?_, ?_, hmono⟩
    · simpa [List.mem_append, hne] using hem
    · intro hmem
      simp only [List.mem_append, List.mem_singleton, List.not_mem_nil, or_false, hne] at hmem
      exact le_trans (h9c hmem) hmono
    · exact fun _ => (hdiv _).mp h7.1
    · intro _; simp [List.mem_append]
    · intro hx
      simp [List.mem_append, h9m hx]
    · simp [LightweightMonitor.warnCount, LightweightMonitor.firedInd, hw7,
        List.mem_append, h7.2]
    · simp [LightweightMonitor.critCount, LightweightMonitor.firedInd, hw7,
        List.mem_append, hne]
  · -- only 0.90 newly fires
    have h7m : (7 : ℚ)/10 * budget ≤ s.totalCost + cost → (7 : ℚ)/10 ∈ s.fired := by
      intro hx
      by_contra hmem
      exact h7 ⟨(hdiv _).mpr hx, hmem⟩
    simp only [if_neg h7, if_pos h9]
    refine ⟨⟨trivial, by simp [List.mem_append], ?_, ?_, ?_, ?_⟩, ?_, ?_, hmono⟩
    · exact fun _ => (hdiv _).mp h9.1
    · intro hmem
      simp only [List.mem_append, List.mem_singleton, List.not_mem_nil, false_or, or_false,
        hne'] at hmem
      exact le_trans (h7c hmem) hmono
    · intro hx
      simp [List.mem_append, h7m hx]
    · intro _; simp [List.mem_append]
    · simp [LightweightMonitor.warnCount, LightweightMonitor.firedInd, hk9,
        List.mem_append, hne']
    · simp [LightweightMonitor.critCount, LightweightMonitor.firedInd, hk9,
        List.mem_append, h9.2]
  · -- nothing fires
    have h7m : (7 : ℚ)/10 * budget ≤ s.totalCost + cost → (7 : ℚ)/10 ∈ s.fired := by
      intro hx
      by_contra hmem
      exact h7 ⟨(hdiv _).mpr hx, hmem⟩
    have h9m : (9 : ℚ)/10 * budget ≤ s.totalCost + cost → (9 : ℚ)/10 ∈ s.fired := by
      intro hx
      by_contra hmem
      exact h9 ⟨(hdiv _).mpr hx, hmem⟩
    simp only [if_neg h7, if_neg h9, List.append_nil]
    refine ⟨⟨trivial, hem, ?_, ?_, ?_, ?_⟩, ?_, ?_, hmono⟩
    · exact fun hmem => le_trans (h9c hmem) hmono
    · exact fun hmem => le_trans (h7c hmem) hmono
    · exact h7m
    · exact h9m
    · simp [LightweightMonitor.warnCount, LightweightMonitor.firedInd]
    · simp [LightweightMonitor.critCount, LightweightMonitor.firedInd]

/-- Helper: alert counters distribute over list append. -/
theorem warnCount_append (a b : List LightweightMonitor.Alert) :
    LightweightMonitor.warnCount (a ++ b) =
      LightweightMonitor.warnCount a + LightweightMonitor.warnCount b := by
  simp [LightweightMonitor.warnCount, List.filter_append]

/-- Helper: CRITICAL counter distributes over list append. -/
theorem critCount_append (a b : List LightweightMonitor.Alert) :
    LightweightMonitor.critCount (a ++ b) =
      LightweightMonitor.critCount a + LightweightMonitor.critCount b := by
  simp [LightweightMonitor.critCount, List.filter_append]

/-- Helper: a same-date run of `trackUsage` calls preserves the daily
invariant, counts one WARNING/CRITICAL per newly fired threshold, and
never decreases the cumulative cost. -/
theorem runSeq_inv (budget : ℚ) (hb : 0 < budget) (d : Nat)
    (calls : List LightweightMonitor.Call) :
    ∀ s : LightweightMonitor.MonState,
      (∀ c ∈ calls, c.date = d) → (∀ c ∈ calls, 0 ≤ c.cost) →
      LightweightMonitor.DayInv budget d s →
      LightweightMonitor.DayInv budget d (LightweightMonitor.runSeq budget calls s).1 ∧
      LightweightMonitor.warnCount (LightweightMonitor.runSeq budget calls s).2 +
        LightweightMonitor.firedInd (7/10) s =
        LightweightMonitor.firedInd (7/10) (LightweightMonitor.runSeq budget calls s).1 ∧
      LightweightMonitor.critCount (LightweightMonitor.runSeq budget calls s).2 +
        LightweightMonitor.firedInd (9/10) s =
        LightweightMonitor.firedInd (9/10) (LightweightMonitor.runSeq budget calls s).1 ∧
      s.totalCost ≤ (LightweightMonitor.runSeq budget calls s).1.totalCost := by
  induction calls with
  | nil =>
    intro s _ _ hinv
    simpa [LightweightMonitor.runSeq, LightweightMonitor.warnCount,
      LightweightMonitor.critCount] using hinv
  | cons c cs ih =>
    intro s hdates hcosts hinv
    have hd1 : c.date = d := hdates c (List.mem_cons_self c cs)
    have hc1 : 0 ≤ c.cost := hcosts c (List.mem_cons_self c cs)
    have step := trackUsage_step_inv budget hb d c.cost c.tokens hc1 s hinv
    obtain ⟨hinv1, hw1, hcr1, hm1⟩ := step
    have rest := ih (LightweightMonitor.trackUsage budget d c.cost c.tokens s).1
      (fun c' h => hdates c' (List.mem_cons_of_mem c h))
      (fun c' h => hcosts c' (List.mem_cons_of_mem c h)) hinv1
    obtain ⟨hinv2, hw2, hcr2, hm2⟩ := rest
    simp only [LightweightMonitor.runSeq, hd1, warnCount_append, critCount_append]
    exact ⟨hinv2, by omega, by omega, le_trans hm1 hm2⟩

/-- Helper: a fresh daily state satisfies the daily invariant. -/
theorem dayInv_reset (budget : ℚ) (hb : 0 < budget) (d : Nat) :
    LightweightMonitor.DayInv budget d (LightweightMonitor.resetDailyUsage d) := by
  unfold LightweightMonitor.DayInv LightweightMonitor.resetDailyUsage
  refine ⟨rfl, by simp, by simp, by simp, ?_, ?_⟩
  · intro hx
    exfalso
    nlinarith
  · intro hx
    exfalso
    nlinarith

/-- Claim C1, counterexample: the claim says that over a single-day sequence
of `trackUsage` calls crossing 70% and then 90%, exactly one WARNING and
one CRITICAL alert fire.  `CostOptimizer.trackUsage` keeps no
fired-threshold memory: with budget 5, the day-0 costs 4, 0.1, 0.5, 0.2
cross 70% then 90% yet fire WARNING twice and CRITICAL twice. -/
theorem c1_costopt_alerts_refire_counterexample :
    (CostOptimizer.runSeq 5
        [(0, "glm-4.7", 10, 4), (0, "glm-4.7", 10, 1/10),
         (0, "glm-4.7", 10, 1/2), (0, "glm-4.7", 10, 1/5)] ⟨[], false⟩).2 =
      ["WARNING", "WARNING", "CRITICAL", "CRITICAL"] ∧
    (["WARNING", "WARNING", "CRITICAL", "CRITICAL"].count "WARNING" = 2 ∧
     ["WARNING", "WARNING", "CRITICAL", "CRITICAL"].count "CRITICAL" = 2) := by
  constructor
  · norm_num [CostOptimizer.runSeq, CostOptimizer.trackUsage, CostOptimizer.checkBudgetAlert,
      CostOptimizer.getDaily, CostOptimizer.setDaily, CostOptimizer.emptyDaily,
      CostOptimizer.bumpModel, List.lookup]
  · decide

/-- Claim C1, amended: for `LightweightMonitor.trackUsage` the claim holds
as stated — over any single-day sequence of calls (positive budget,
non-negative costs) whose cumulative cost reaches 90% of the budget,
exactly one WARNING and exactly one CRITICAL alert fire, emergency mode is
on at the end and is on after a prefix only once that prefix's cumulative
cost has reached 90%, and a call on a different date behaves exactly as on
the freshly reset state (counters zeroed, fired set cleared, emergency
off).  (`CostOptimizer.trackUsage`, by contrast, re-fires alerts on every
call in band — see the counterexample.) -/
theorem c1_lightweight_budget_lifecycle (budget : ℚ) (hb : 0 < budget) (d : Nat)
    (calls : List LightweightMonitor.Call)
    (hdates : ∀ c ∈ calls, c.date = d) (hcosts : ∀ c ∈ calls, 0 ≤ c.cost)
    (hcross : 9/10 * budget ≤
      (LightweightMonitor.runSeq budget calls (LightweightMonitor.resetDailyUsage d)).1.totalCost) :
    LightweightMonitor.warnCount
      (LightweightMonitor.runSeq budget calls (LightweightMonitor.resetDailyUsage d)).2 = 1 ∧
    LightweightMonitor.critCount
      (LightweightMonitor.runSeq budget calls (LightweightMonitor.resetDailyUsage d)).2 = 1 ∧
    (LightweightMonitor.runSeq budget calls (LightweightMonitor.resetDailyUsage d)).1.emergency = true ∧
    (∀ pre suff : List LightweightMonitor.Call, calls = pre ++ suff →
      (LightweightMonitor.runSeq budget pre (LightweightMonitor.resetDailyUsage d)).1.emergency = true →
      9/10 * budget ≤
        (LightweightMonitor.runSeq budget pre (LightweightMonitor.resetDailyUsage d)).1.totalCost) ∧
    (∀ (d2 : Nat) (cost2 tokens2 : ℚ), d2 ≠ d →
      LightweightMonitor.trackUsage budget d2 cost2 tokens2
        (LightweightMonitor.runSeq budget calls (LightweightMonitor.resetDailyUsage d)).1 =
      LightweightMonitor.trackUsage budget d2 cost2 tokens2
        (LightweightMonitor.resetDailyUsage d2)) := by
  have h0 := dayInv_reset budget hb d
  obtain ⟨hinvF, hw, hcr, hm⟩ :=
    runSeq_inv budget hb d calls (LightweightMonitor.resetDailyUsage d) hdates hcosts h0
  obtain ⟨hdtF, hemF, h9cF, h7cF, h7fF, h9fF⟩ := hinvF
  have h9mem : (9 : ℚ)/10 ∈
      (LightweightMonitor.runSeq budget calls (LightweightMonitor.resetDailyUsage d)).1.fired :=
    h9fF hcross
  have h7mem : (7 : ℚ)/10 ∈
      (LightweightMonitor.runSeq budget calls (LightweightMonitor.resetDailyUsage d)).1.fired := by
    apply h7fF
    nlinarith
  have hzero7 : LightweightMonitor.firedInd (7/10) (LightweightMonitor.resetDailyUsage d) = 0 := by
    simp [LightweightMonitor.firedInd, LightweightMonitor.resetDailyUsage]
  have hzero9 : LightweightMonitor.firedInd (9/10) (LightweightMonitor.resetDailyUsage d) = 0 := by
    simp [LightweightMonitor.firedInd, LightweightMonitor.resetDailyUsage]
  have hone7 : LightweightMonitor.firedInd (7/10)
      (LightweightMonitor.runSeq budget calls (LightweightMonitor.resetDailyUsage d)).1 = 1 := by
    simp [LightweightMonitor.firedInd, h7mem]
  have hone9 : LightweightMonitor.firedInd (9/10)
      (LightweightMonitor.runSeq budget calls (LightweightMonitor.resetDailyUsage d)).1 = 1 := by
    simp [LightweightMonitor.firedInd, h9mem]
  refine ⟨by omega, by omega, hemF.mpr h9mem, ?_, ?_⟩
  · intro pre suff hsplit hempre
    have hdpre : ∀ c ∈ pre, c.date = d := by
      intro c h
      exact hdates c (hsplit ▸ List.mem_append_left suff h)
    have hcpre : ∀ c ∈ pre, 0 ≤ c.cost := by
      intro c h
      exact hcosts c (hsplit ▸ List.mem_append_left suff h)
    obtain ⟨⟨_, hemP, h9cP, _, _, _⟩, _, _, _⟩ :=
      runSeq_inv budget hb d pre (LightweightMonitor.resetDailyUsage d) hdpre hcpre h0
    exact h9cP (hemP.mp hempre)
  · intro d2 cost2 tokens2 hne2
    have hL : (if (LightweightMonitor.runSeq budget calls
          (LightweightMonitor.resetDailyUsage d)).1.date ≠ d2
        then LightweightMonitor.resetDailyUsage d2
        else (LightweightMonitor.runSeq budget calls (LightweightMonitor.resetDailyUsage d)).1) =
        LightweightMonitor.resetDailyUsage d2 := by
      rw [if_pos]
      rw [hdtF]
      exact Ne.symm hne2
    have hR : (if (LightweightMonitor.resetDailyUsage d2).date ≠ d2
        then LightweightMonitor.resetDailyUsage d2
        else LightweightMonitor.resetDailyUsage d2) = LightweightMonitor.resetDailyUsage d2 := by
      simp
    simp only [LightweightMonitor.trackUsage, hL, hR]

/-- Witness for `c1_lightweight_budget_lifecycle`: budget 5, one day-0 run
with costs 4 then 1 (80%, then 100%). -/
theorem c1_lightweight_budget_lifecycle_witness :
    (0 : ℚ) < 5 ∧
    (∀ c ∈ [(⟨0, 4, 100⟩ : LightweightMonitor.Call), ⟨0, 1, 50⟩], c.date = 0) ∧
    (∀ c ∈ [(⟨0, 4, 100⟩ : LightweightMonitor.Call), ⟨0, 1, 50⟩], 0 ≤ c.cost) ∧
    9/10 * 5 ≤ (LightweightMonitor.runSeq 5 [⟨0, 4, 100⟩, ⟨0, 1, 50⟩]
      (LightweightMonitor.resetDailyUsage 0)).1.totalCost ∧
    (LightweightMonitor.warnCount
      (LightweightMonitor.runSeq 5 [⟨0, 4, 100⟩, ⟨0, 1, 50⟩]
        (LightweightMonitor.resetDailyUsage 0)).2 = 1 ∧
    LightweightMonitor.critCount
      (LightweightMonitor.runSeq 5 [⟨0, 4, 100⟩, ⟨0, 1, 50⟩]
        (LightweightMonitor.resetDailyUsage 0)).2 = 1 ∧
    (LightweightMonitor.runSeq 5 [⟨0, 4, 100⟩, ⟨0, 1, 50⟩]
      (LightweightMonitor.resetDailyUsage 0)).1.emergency = true ∧
    (∀ pre suff : List LightweightMonitor.Call,
      [(⟨0, 4, 100⟩ : LightweightMonitor.Call), ⟨0, 1, 50⟩] = pre ++ suff →
      (LightweightMonitor.runSeq 5 pre (LightweightMonitor.resetDailyUsage 0)).1.emergency = true →
      9/10 * 5 ≤
        (LightweightMonitor.runSeq 5 pre (LightweightMonitor.resetDailyUsage 0)).1.totalCost) ∧
    (∀ (d2 : Nat) (cost2 tokens2 : ℚ), d2 ≠ 0 →
      LightweightMonitor.trackUsage 5 d2 cost2 tokens2
        (LightweightMonitor.runSeq 5 [⟨0, 4, 100⟩, ⟨0, 1, 50⟩]
          (LightweightMonitor.resetDailyUsage 0)).1 =
      LightweightMonitor.trackUsage 5 d2 cost2 tokens2
        (LightweightMonitor.resetDailyUsage d2))) := by
  have hb : (0 : ℚ) < 5 := by norm_num
  have hdates : ∀ c ∈ [(⟨0, 4, 100⟩ : LightweightMonitor.Call), ⟨0, 1, 50⟩], c.date = 0 := by
    intro c hc
    rcases List.mem_cons.mp hc with rfl | hc2
    · rfl
    · rcases List.mem_cons.mp hc2 with rfl | h3
      · rfl
      · cases h3
  have hcosts : ∀ c ∈ [(⟨0, 4, 100⟩ : LightweightMonitor.Call), ⟨0, 1, 50⟩], 0 ≤ c.cost := by
    intro c hc
    rcases List.mem_cons.mp hc with rfl | hc2
    · norm_num
    · rcases List.mem_cons.mp hc2 with rfl | h3
      · norm_num
      · cases h3
  have hcross : 9/10 * 5 ≤ (LightweightMonitor.runSeq 5 [⟨0, 4, 100⟩, ⟨0, 1, 50⟩]
      (LightweightMonitor.resetDailyUsage 0)).1.totalCost := by
    norm_num [LightweightMonitor.runSeq, LightweightMonitor.trackUsage,
      LightweightMonitor.resetDailyUsage, LightweightMonitor.fireThresholds,
      LightweightMonitor.alertThresholds, LightweightMonitor.mkAlert]
  exact ⟨hb, hdates, hcosts, hcross,
    c1_lightweight_budget_lifecycle 5 hb 0 _ hdates hcosts hcross⟩
